import Mathlib

/-!
Shallow embedding of the firmware-based retraction controller in
`src/fwretract.cpp` (class `FWRetract`).

Modelling choices:
* `float` values (lengths, feedrates, positions) are embedded as `ℚ`; the
  literal `0.01` of the C++ source is written `hundredth`.
* The per-extruder flag arrays `retracted[]` / `retracted_swap[]` are embedded
  as functions `Nat → Bool`; an array store becomes `setFlag`.
* The build-time constant `EXTRUDERS` and the planner/global context the
  function only reads (`active_extruder`, `planner.e_factor`,
  `planner.max_feedrate_mm_s[Z_AXIS]`) form the read-only `Env` record.
* The mutable globals touched by `FWRetract::retract` — the flag arrays, the
  `static float hop_amount`, `current_position[E_AXIS]`, `current_position[Z_AXIS]`
  and `feedrate_mm_s` — form the `MachineState` record, together with the
  configuration fields (the static data members of the class, which `retract`
  reads but never writes).
* Each `prepare_move_to_destination()` call queues one `Move` recording the
  start position (the possibly silently-redefined `current_position`), the
  target (`destination`, which stays at the pre-call current position) and the
  feedrate in force at that time; after it the logical current position equals
  the destination, which is how the C++ code behaves.
* `stepper.synchronize()`, `sync_plan_position_e()` and
  `SYNC_PLAN_POSITION_KINEMATIC()` have no observable effect in this
  state-level model beyond the position bookkeeping already described.
-/

namespace FWRetract

/-- Configuration fields of `FWRetract` (set by M207/M208/M209), the static
data members declared at `src/fwretract.cpp:46-55`. They are read-only during
`retract`. -/
structure Config where
  autoretract_enabled : Bool
  retract_length : ℚ
  retract_feedrate_mm_s : ℚ
  retract_zlift : ℚ
  retract_recover_length : ℚ
  retract_recover_feedrate_mm_s : ℚ
  swap_retract_length : ℚ
  swap_retract_recover_length : ℚ
  swap_retract_recover_feedrate_mm_s : ℚ

/-- Build-time and planner context that `FWRetract::retract` reads and never
writes: the `EXTRUDERS` build constant, the ambient `active_extruder`, the
planner's per-extruder flow factor `planner.e_factor`, and
`planner.max_feedrate_mm_s[Z_AXIS]`. -/
structure Env where
  extruders : Nat
  active_extruder : Nat
  e_factor : Nat → ℚ
  max_feedrate_z : ℚ

/-- The mutable state seen by the controller: the configuration, the
per-extruder `retracted[]` and `retracted_swap[]` flag arrays, the static
local `hop_amount`, the current position on the filament (E) and Z axes, and
the feedrate override `feedrate_mm_s`. -/
structure MachineState where
  conf : Config
  retracted : Nat → Bool
  retracted_swap : Nat → Bool
  hop_amount : ℚ
  current_e : ℚ
  current_z : ℚ
  feedrate_mm_s : ℚ

/-- One motion command queued by `prepare_move_to_destination()`: a move from
the (possibly silently redefined) current position to the destination, at the
feedrate in force when it was issued. -/
structure Move where
  e_from : ℚ
  e_to : ℚ
  z_from : ℚ
  z_to : ℚ
  feedrate : ℚ

/-- Signed filament-axis displacement of a queued move. -/
def Move.e_disp (m : Move) : ℚ := m.e_to - m.e_from

/-- Signed Z-axis displacement of a queued move. -/
def Move.z_disp (m : Move) : ℚ := m.z_to - m.z_from

/-- The `float` literal `0.01` of `src/fwretract.cpp:125` (the "is there a
hop set?" threshold), as the exact rational 1/100.  It is written with
`mkRat` so that concrete instances reduce inside `decide`. -/
def hundredth : ℚ := mkRat 1 100

/-- Array store `f[i] = b` on a flag array embedded as a function. -/
def setFlag (f : Nat → Bool) (i : Nat) (b : Bool) : Nat → Bool :=
  fun j => if j = i then b else f j

/-- The retract branch of `FWRetract::retract` (`src/fwretract.cpp:134-151`)
together with the epilogue (`:171-178`), entered after the suppression guards
with `retracting = true`.  `sw` is the (already `EXTRUDERS`-adjusted) value of
`swapping`.  It queues the filament pull move at the retract feedrate, and —
when a hop is configured (`retract_zlift > 0.01`) and none is pending
(`hop_amount == 0`) — adds `retract_zlift` to `hop_amount`, pretends the
current Z is lower by `retract_zlift` and queues the upward Z move at the
axis maximum feedrate.  The epilogue restores the feedrate and commits the
flags of the active extruder. -/
def retractAccept (env : Env) (s : MachineState) (sw : Bool) : MachineState × List Move :=
  let a := env.active_extruder
  let renormalize : ℚ := 1 / env.e_factor a
  let moveE : Move :=
    { e_from := s.current_e + (if sw then s.conf.swap_retract_length else s.conf.retract_length) * renormalize
      e_to := s.current_e
      z_from := s.current_z
      z_to := s.current_z
      feedrate := s.conf.retract_feedrate_mm_s }
  if s.conf.retract_zlift > hundredth ∧ s.hop_amount = 0 then
    ({ s with
        hop_amount := s.hop_amount + s.conf.retract_zlift
        retracted := setFlag s.retracted a true
        retracted_swap :=
          if 1 < env.extruders ∧ sw = true then setFlag s.retracted_swap a true
          else s.retracted_swap },
     [moveE,
      { e_from := s.current_e
        e_to := s.current_e
        z_from := s.current_z - s.conf.retract_zlift
        z_to := s.current_z
        feedrate := env.max_feedrate_z }])
  else
    ({ s with
        retracted := setFlag s.retracted a true
        retracted_swap :=
          if 1 < env.extruders ∧ sw = true then setFlag s.retracted_swap a true
          else s.retracted_swap },
     [moveE])

/-- The recover branch of `FWRetract::retract` (`src/fwretract.cpp:152-169`)
together with the epilogue (`:171-178`), entered after the suppression guards
with `retracting = false`.  `sw` is the effective `swapping` value (already
overridden by the G11 priority rule).  If a hop is pending it first pretends
the current Z is higher by `retract_zlift`, queues the downward Z move at the
axis maximum feedrate, and clears `hop_amount`; then it queues the single
filament recovery move of `length + recover_length` (swap variant when `sw`)
times `renormalize` at the matching recover feedrate.  The epilogue restores
the feedrate and commits the flags of the active extruder. -/
def recoverAccept (env : Env) (s : MachineState) (sw : Bool) : MachineState × List Move :=
  let a := env.active_extruder
  let renormalize : ℚ := 1 / env.e_factor a
  let move_e : ℚ :=
    (if sw then s.conf.swap_retract_length + s.conf.swap_retract_recover_length
     else s.conf.retract_length + s.conf.retract_recover_length) * renormalize
  let moveE : Move :=
    { e_from := s.current_e - move_e
      e_to := s.current_e
      z_from := s.current_z
      z_to := s.current_z
      feedrate :=
        if sw then s.conf.swap_retract_recover_feedrate_mm_s
        else s.conf.retract_recover_feedrate_mm_s }
  ({ s with
      hop_amount := if s.hop_amount = 0 then s.hop_amount else 0
      retracted := setFlag s.retracted a false
      retracted_swap :=
        if 1 < env.extruders ∧ sw = true then setFlag s.retracted_swap a false
        else s.retracted_swap },
   (if s.hop_amount = 0 then ([] : List Move)
    else [{ e_from := s.current_e
            e_to := s.current_e
            z_from := s.current_z + s.conf.retract_zlift
            z_to := s.current_z
            feedrate := env.max_feedrate_z }]) ++ [moveE])

/-- `FWRetract::retract(retracting, swapping)` (`src/fwretract.cpp:90-194`).
Returns the post-call machine state together with the list of queued motion
commands, in order.  The two suppression guards come first: doubled
retract/recover requests (`:99`), and, when `EXTRUDERS > 1`, doubled swap
requests (`:104`).  On a recover in a multi-extruder build, `swapping` is
overridden by the pending `retracted_swap` flag (`:106`); in a single-extruder
build `swapping` is the constant `false` (`:108`). -/
def retract (env : Env) (s : MachineState) (retracting : Bool) (swapping : Bool) :
    MachineState × List Move :=
  let a := env.active_extruder
  if s.retracted a = retracting then (s, [])
  else if 1 < env.extruders ∧ swapping = true ∧ s.retracted_swap a = retracting then (s, [])
  else if retracting = true then
    retractAccept env s (if 1 < env.extruders then swapping else false)
  else
    recoverAccept env s (if 1 < env.extruders then s.retracted_swap a else false)

/-- The compiled-in configuration defaults (`RETRACT_LENGTH`,
`RETRACT_FEEDRATE`, ... from the excluded `Conditionals_post.h` /
configuration headers) that `FWRetract::reset` assigns. Their numeric values
are build configuration, so they are parameters of the model. -/
structure Defaults where
  retract_length : ℚ
  retract_feedrate : ℚ
  retract_zlift : ℚ
  retract_recover_length : ℚ
  retract_recover_feedrate : ℚ
  retract_length_swap : ℚ
  retract_recover_length_swap : ℚ
  retract_recover_feedrate_swap : ℚ

/-- `FWRetract::reset()` (`src/fwretract.cpp:57-74`): restores each
configuration field to its compiled-in default, clears `autoretract_enabled`,
and clears `retracted[i]` (and, when `EXTRUDERS > 1`, `retracted_swap[i]`)
for every extruder index `i < EXTRUDERS`.  It does not touch `hop_amount`,
the position, or the feedrate. -/
def reset (d : Defaults) (env : Env) (s : MachineState) : MachineState :=
  { s with
    conf :=
      { autoretract_enabled := false
        retract_length := d.retract_length
        retract_feedrate_mm_s := d.retract_feedrate
        retract_zlift := d.retract_zlift
        retract_recover_length := d.retract_recover_length
        retract_recover_feedrate_mm_s := d.retract_recover_feedrate
        swap_retract_length := d.retract_length_swap
        swap_retract_recover_length := d.retract_recover_length_swap
        swap_retract_recover_feedrate_mm_s := d.retract_recover_feedrate_swap }
    retracted := fun i => if i < env.extruders then false else s.retracted i
    retracted_swap :=
      fun i => if 1 < env.extruders ∧ i < env.extruders then false else s.retracted_swap i }

/-- Iterate accepted-or-suppressed retract transitions (`retracting = true`)
over a list of `swapping` arguments; used to state properties of sequences of
consecutive retract calls. -/
def retractSeq (env : Env) (s : MachineState) (sws : List Bool) : MachineState :=
  List.foldl (fun t b => (retract env t true b).1) s sws

/-! ### Concrete fixtures used by the witness theorems -/

/-- A sample configuration: 3mm retract at 45mm/s, 0.4mm Z hop, 13mm swap
retract, recover feedrates 8mm/s. -/
def cfg0 : Config :=
  { autoretract_enabled := false
    retract_length := 3
    retract_feedrate_mm_s := 45
    retract_zlift := mkRat 2 5
    retract_recover_length := 0
    retract_recover_feedrate_mm_s := 8
    swap_retract_length := 13
    swap_retract_recover_length := 1
    swap_retract_recover_feedrate_mm_s := 6 }

/-- A two-extruder environment with unit flow factor and Z max feedrate 5. -/
def env2 : Env :=
  { extruders := 2
    active_extruder := 0
    e_factor := fun _ => 1
    max_feedrate_z := 5 }

/-- Fully recovered initial state under `cfg0`. -/
def st0 : MachineState :=
  { conf := cfg0
    retracted := fun _ => false
    retracted_swap := fun _ => false
    hop_amount := 0
    current_e := 10
    current_z := 20
    feedrate_mm_s := 7 }

/-- A state in which every extruder is both retracted and swap-retracted. -/
def stR : MachineState :=
  { st0 with retracted := fun _ => true, retracted_swap := fun _ => true }

/-- A plain-retracted state (no swap flag pending). -/
def stP : MachineState :=
  { stR with retracted_swap := fun _ => false }

/-- A plain-retracted state with the 0.4mm hop pending. -/
def stHop : MachineState :=
  { stP with hop_amount := mkRat 2 5 }

/-- Sample compiled-in defaults for `reset`. -/
def d0 : Defaults :=
  { retract_length := 3
    retract_feedrate := 45
    retract_zlift := mkRat 2 5
    retract_recover_length := 0
    retract_recover_feedrate := 8
    retract_length_swap := 13
    retract_recover_length_swap := 1
    retract_recover_feedrate_swap := 6 }

/-! ### Helper lemmas -/

/-- An accepted retract request reduces to the retract branch. -/
lemma retract_eq_retractAccept (env : Env) (s : MachineState) (swapping : Bool)
    (h1 : s.retracted env.active_extruder = false)
    (h2 : ¬(1 < env.extruders ∧ swapping = true ∧
        s.retracted_swap env.active_extruder = true)) :
    retract env s true swapping =
      retractAccept env s (if 1 < env.extruders then swapping else false) := by
  unfold retract
  rw [if_neg (by simp [h1]), if_neg h2, if_pos rfl]

/-- An accepted recover request reduces to the recover branch, with the
effective `swapping` overridden by the pending swap flag. -/
lemma retract_eq_recoverAccept (env : Env) (s : MachineState) (swapping : Bool)
    (h1 : s.retracted env.active_extruder = true)
    (h2 : ¬(1 < env.extruders ∧ swapping = true ∧
        s.retracted_swap env.active_extruder = false)) :
    retract env s false swapping =
      recoverAccept env s (if 1 < env.extruders then s.retracted_swap env.active_extruder else false) := by
  unfold retract
  rw [if_neg (by simp [h1]), if_neg h2, if_neg (by simp)]

/-- A request suppressed by the doubled-transition guard
(`src/fwretract.cpp:99`) is a no-op. -/
lemma retract_noop_of_guard1 (env : Env) (s : MachineState) (retracting swapping : Bool)
    (h : s.retracted env.active_extruder = retracting) :
    retract env s retracting swapping = (s, []) := by
  unfold retract
  rw [if_pos h]

/-- A request suppressed by the swap guard (`src/fwretract.cpp:104`) is a
no-op. -/
lemma retract_noop_of_guard2 (env : Env) (s : MachineState) (retracting swapping : Bool)
    (h1 : ¬s.retracted env.active_extruder = retracting)
    (h2 : 1 < env.extruders ∧ swapping = true ∧
        s.retracted_swap env.active_extruder = retracting) :
    retract env s retracting swapping = (s, []) := by
  unfold retract
  rw [if_neg h1, if_pos h2]

/-- The retract branch never changes the configuration. -/
lemma retractAccept_conf (env : Env) (s : MachineState) (sw : Bool) :
    (retractAccept env s sw).1.conf = s.conf := by
  by_cases h : s.conf.retract_zlift > hundredth ∧ s.hop_amount = 0
  · simp only [retractAccept, if_pos h]
  · simp only [retractAccept, if_neg h]

/-- The recover branch never changes the configuration. -/
lemma recoverAccept_conf (env : Env) (s : MachineState) (sw : Bool) :
    (recoverAccept env s sw).1.conf = s.conf := rfl

/-- `retract` never changes the configuration. -/
lemma retract_conf (env : Env) (s : MachineState) (retracting swapping : Bool) :
    (retract env s retracting swapping).1.conf = s.conf := by
  by_cases h1 : s.retracted env.active_extruder = retracting
  · simp only [retract, if_pos h1]
  · by_cases h2 : 1 < env.extruders ∧ swapping = true ∧
        s.retracted_swap env.active_extruder = retracting
    · simp only [retract, if_neg h1, if_pos h2]
    · by_cases h3 : retracting = true
      · simp only [retract, if_neg h1, if_neg h2, if_pos h3]
        exact retractAccept_conf ..
      · simp only [retract, if_neg h1, if_neg h2, if_neg h3]
        exact recoverAccept_conf ..

/-- Writing flag `i` leaves every other index unchanged. -/
lemma setFlag_ne {f : Nat → Bool} {i j : Nat} (h : j ≠ i) (b : Bool) :
    setFlag f i b j = f j := if_neg h

/-- The retract branch leaves position, feedrate and the flags of inactive
extruders unchanged. -/
lemma retractAccept_frame (env : Env) (s : MachineState) (sw : Bool) :
    (retractAccept env s sw).1.current_e = s.current_e ∧
    (retractAccept env s sw).1.current_z = s.current_z ∧
    (retractAccept env s sw).1.feedrate_mm_s = s.feedrate_mm_s ∧
    ∀ i, i ≠ env.active_extruder →
      (retractAccept env s sw).1.retracted i = s.retracted i ∧
      (retractAccept env s sw).1.retracted_swap i = s.retracted_swap i := by
  by_cases h : s.conf.retract_zlift > hundredth ∧ s.hop_amount = 0 <;>
    [simp only [retractAccept, if_pos h]; simp only [retractAccept, if_neg h]] <;>
  · refine ⟨trivial, trivial, trivial, fun i hi => ⟨setFlag_ne hi true, ?_⟩⟩
    by_cases hs : 1 < env.extruders ∧ sw = true
    · simp only [if_pos hs, setFlag_ne hi]
    · simp only [if_neg hs]

/-- The recover branch leaves position, feedrate and the flags of inactive
extruders unchanged. -/
lemma recoverAccept_frame (env : Env) (s : MachineState) (sw : Bool) :
    (recoverAccept env s sw).1.current_e = s.current_e ∧
    (recoverAccept env s sw).1.current_z = s.current_z ∧
    (recoverAccept env s sw).1.feedrate_mm_s = s.feedrate_mm_s ∧
    ∀ i, i ≠ env.active_extruder →
      (recoverAccept env s sw).1.retracted i = s.retracted i ∧
      (recoverAccept env s sw).1.retracted_swap i = s.retracted_swap i := by
  refine ⟨rfl, rfl, rfl, fun i hi => ⟨setFlag_ne hi false, ?_⟩⟩
  by_cases hs : 1 < env.extruders ∧ sw = true
  · simp only [recoverAccept, if_pos hs, setFlag_ne hi]
  · simp only [recoverAccept, if_neg hs]

/-- Hop accounting of the retract branch: `retract_zlift` is added exactly
when a hop is configured and none is pending. -/
lemma retractAccept_hop (env : Env) (s : MachineState) (sw : Bool) :
    (retractAccept env s sw).1.hop_amount =
      if s.conf.retract_zlift > hundredth ∧ s.hop_amount = 0
      then s.hop_amount + s.conf.retract_zlift else s.hop_amount := by
  by_cases h : s.conf.retract_zlift > hundredth ∧ s.hop_amount = 0
  · simp only [retractAccept, if_pos h]
  · simp only [retractAccept, if_neg h]

/-- The first move queued by the retract branch is the filament pull at the
retract feedrate. -/
lemma retractAccept_head (env : Env) (s : MachineState) (sw : Bool) :
    (retractAccept env s sw).2.head? = some
      { e_from := s.current_e +
          (if sw then s.conf.swap_retract_length else s.conf.retract_length) *
            (1 / env.e_factor env.active_extruder)
        e_to := s.current_e
        z_from := s.current_z
        z_to := s.current_z
        feedrate := s.conf.retract_feedrate_mm_s } := by
  by_cases h : s.conf.retract_zlift > hundredth ∧ s.hop_amount = 0
  · simp only [retractAccept, if_pos h]
    rfl
  · simp only [retractAccept, if_neg h]
    rfl

/-- The retract branch commits the active extruder's `retracted` flag. -/
lemma retractAccept_retracted_self (env : Env) (s : MachineState) (sw : Bool) :
    (retractAccept env s sw).1.retracted env.active_extruder = true := by
  by_cases h : s.conf.retract_zlift > hundredth ∧ s.hop_amount = 0 <;>
    [simp only [retractAccept, if_pos h]; simp only [retractAccept, if_neg h]] <;>
    simp [setFlag]

/-- On a multi-extruder swap retract the branch also commits the active
extruder's `retracted_swap` flag. -/
lemma retractAccept_retracted_swap_self (env : Env) (s : MachineState) (sw : Bool)
    (hext : 1 < env.extruders) (hsw : sw = true) :
    (retractAccept env s sw).1.retracted_swap env.active_extruder = true := by
  by_cases h : s.conf.retract_zlift > hundredth ∧ s.hop_amount = 0 <;>
    [simp only [retractAccept, if_pos h]; simp only [retractAccept, if_neg h]] <;>
    simp [setFlag, hext, hsw]

/-- When a hop fires, the net Z displacement queued by the retract branch is
the configured Z lift. -/
lemma retractAccept_moves_z (env : Env) (s : MachineState) (sw : Bool)
    (h : s.conf.retract_zlift > hundredth ∧ s.hop_amount = 0) :
    (((retractAccept env s sw).2).map Move.z_disp).sum = s.conf.retract_zlift := by
  simp only [retractAccept, if_pos h, List.map_cons, List.map_nil, Move.z_disp,
    List.sum_cons, List.sum_nil]
  ring

/-- When a hop is pending, the net Z displacement queued by the recover branch
is minus the configured Z lift. -/
lemma recoverAccept_moves_z (env : Env) (s : MachineState) (sw : Bool)
    (h : s.hop_amount ≠ 0) :
    (((recoverAccept env s sw).2).map Move.z_disp).sum = -s.conf.retract_zlift := by
  simp only [recoverAccept, if_neg h, List.cons_append, List.nil_append,
    List.map_cons, List.map_nil, Move.z_disp, List.sum_cons, List.sum_nil]
  ring

/-- The recover branch always leaves `hop_amount` at zero. -/
lemma recoverAccept_hop_zero (env : Env) (s : MachineState) (sw : Bool) :
    (recoverAccept env s sw).1.hop_amount = 0 := by
  by_cases h : s.hop_amount = 0
  · simp only [recoverAccept, if_pos h]
    exact h
  · simp only [recoverAccept, if_neg h]

/-! ### Claim theorems -/

/-- Claim C1: if the active extruder's `retracted` flag already equals the
`retracting` argument, `retract` is a no-op for either `swapping` value: it
queues no moves and returns the state unchanged (flags, hop amount, position
and feedrate included). -/
theorem retract_noop_of_retracted_eq (env : Env) (s : MachineState)
    (retracting swapping : Bool)
    (h : s.retracted env.active_extruder = retracting) :
    retract env s retracting swapping = (s, []) :=
  retract_noop_of_guard1 env s retracting swapping h

/-- Witness for C1: in the all-retracted two-extruder state, a further retract
request is the identity and queues nothing. -/
theorem retract_noop_of_retracted_eq_witness :
    stR.retracted env2.active_extruder = true ∧
      retract env2 stR true false = (stR, []) :=
  ⟨rfl, retract_noop_of_retracted_eq env2 stR true false rfl⟩

/-- Claim C4: in a multi-extruder build, a swap request whose `retracted_swap`
flag already equals `retracting` is a no-op, even when the plain `retracted`
flag differs from `retracting`. -/
theorem retract_noop_of_swap_eq (env : Env) (s : MachineState) (retracting : Bool)
    (hext : 1 < env.extruders)
    (h : s.retracted_swap env.active_extruder = retracting) :
    retract env s retracting true = (s, []) := by
  unfold retract
  by_cases h1 : s.retracted env.active_extruder = retracting
  · rw [if_pos h1]
  · rw [if_neg h1, if_pos ⟨hext, rfl, h⟩]

/-- Witness for C4: extruder 0 is swap-retracted but not plain-retracted
(after direct state manipulation), and a further swap retract is a no-op. -/
theorem retract_noop_of_swap_eq_witness :
    1 < env2.extruders ∧
      { st0 with retracted_swap := fun _ => true }.retracted_swap env2.active_extruder = true ∧
      retract env2 { st0 with retracted_swap := fun _ => true } true true =
        ({ st0 with retracted_swap := fun _ => true }, []) :=
  ⟨by decide, rfl,
    retract_noop_of_swap_eq env2 { st0 with retracted_swap := fun _ => true } true
      (by decide) rfl⟩

/-- Claim C10: every call to `retract`, suppressed or accepted, leaves the
configuration, the position, the restored feedrate, and the flags of every
extruder other than the active one unchanged. -/
theorem retract_frame (env : Env) (s : MachineState) (retracting swapping : Bool) :
    (retract env s retracting swapping).1.conf = s.conf ∧
    (retract env s retracting swapping).1.current_e = s.current_e ∧
    (retract env s retracting swapping).1.current_z = s.current_z ∧
    (retract env s retracting swapping).1.feedrate_mm_s = s.feedrate_mm_s ∧
    ∀ i, i ≠ env.active_extruder →
      (retract env s retracting swapping).1.retracted i = s.retracted i ∧
      (retract env s retracting swapping).1.retracted_swap i = s.retracted_swap i := by
  refine ⟨retract_conf .., ?_⟩
  by_cases h1 : s.retracted env.active_extruder = retracting
  · simp only [retract, if_pos h1]
    exact ⟨trivial, trivial, trivial, fun i _ => ⟨trivial, trivial⟩⟩
  · by_cases h2 : 1 < env.extruders ∧ swapping = true ∧
        s.retracted_swap env.active_extruder = retracting
    · simp only [retract, if_neg h1, if_pos h2]
      exact ⟨trivial, trivial, trivial, fun i _ => ⟨trivial, trivial⟩⟩
    · by_cases h3 : retracting = true
      · simp only [retract, if_neg h1, if_neg h2, if_pos h3]
        exact retractAccept_frame ..
      · simp only [retract, if_neg h1, if_neg h2, if_neg h3]
        exact recoverAccept_frame ..

/-- Witness for C10: an accepted swap retract on extruder 0 leaves extruder 1's
flags, the configuration, the position and the feedrate untouched. -/
theorem retract_frame_witness :
    (retract env2 st0 true true).1.conf = st0.conf ∧
      (retract env2 st0 true true).1.retracted 1 = st0.retracted 1 ∧
      (retract env2 st0 true true).1.retracted_swap 1 = st0.retracted_swap 1 ∧
      (retract env2 st0 true true).1.current_z = st0.current_z := by
  obtain ⟨hc, _, hz, _, hflags⟩ := retract_frame env2 st0 true true
  exact ⟨hc, (hflags 1 (by decide)).1, (hflags 1 (by decide)).2, hz⟩

/-- Claim C9: `reset` restores every configuration field to its compiled-in
default, clears the autoretract switch, and clears `retracted` (and, in a
multi-extruder build, `retracted_swap`) for every existing extruder, with no
return value and no failure mode. -/
theorem reset_spec (d : Defaults) (env : Env) (s : MachineState) :
    (reset d env s).conf.autoretract_enabled = false ∧
    (reset d env s).conf.retract_length = d.retract_length ∧
    (reset d env s).conf.retract_feedrate_mm_s = d.retract_feedrate ∧
    (reset d env s).conf.retract_zlift = d.retract_zlift ∧
    (reset d env s).conf.retract_recover_length = d.retract_recover_length ∧
    (reset d env s).conf.retract_recover_feedrate_mm_s = d.retract_recover_feedrate ∧
    (reset d env s).conf.swap_retract_length = d.retract_length_swap ∧
    (reset d env s).conf.swap_retract_recover_length = d.retract_recover_length_swap ∧
    (reset d env s).conf.swap_retract_recover_feedrate_mm_s = d.retract_recover_feedrate_swap ∧
    (∀ i, i < env.extruders → (reset d env s).retracted i = false) ∧
    (1 < env.extruders → ∀ i, i < env.extruders → (reset d env s).retracted_swap i = false) := by
  refine ⟨rfl, rfl, rfl, rfl, rfl, rfl, rfl, rfl, rfl, fun i hi => ?_, fun hext i hi => ?_⟩
  · simp only [reset, if_pos hi]
  · simp only [reset, if_pos (And.intro hext hi)]

/-- Witness for C9: resetting the all-retracted two-extruder state clears both
flags of both extruders and restores the sample defaults. -/
theorem reset_spec_witness :
    (reset d0 env2 stR).retracted 0 = false ∧
      (reset d0 env2 stR).retracted 1 = false ∧
      (reset d0 env2 stR).retracted_swap 0 = false ∧
      (reset d0 env2 stR).retracted_swap 1 = false ∧
      (reset d0 env2 stR).conf.retract_length = d0.retract_length := by
  obtain ⟨-, hl, -, -, -, -, -, -, -, hr, hrs⟩ := reset_spec d0 env2 stR
  exact ⟨hr 0 (by decide), hr 1 (by decide),
    hrs (by decide) 0 (by decide), hrs (by decide) 1 (by decide), hl⟩

/-- Hop accounting of a retract request: `retract_zlift` is added exactly when
the request is accepted, a hop is configured, and no hop is pending; in every
other case `hop_amount` is untouched. -/
lemma retract_true_hop (env : Env) (s : MachineState) (sw : Bool) :
    (retract env s true sw).1.hop_amount =
      if (s.retracted env.active_extruder = false ∧
            ¬(1 < env.extruders ∧ sw = true ∧ s.retracted_swap env.active_extruder = true)) ∧
          s.conf.retract_zlift > hundredth ∧ s.hop_amount = 0
      then s.hop_amount + s.conf.retract_zlift else s.hop_amount := by
  by_cases h1 : s.retracted env.active_extruder = true
  · rw [retract_noop_of_guard1 env s true sw h1,
      if_neg (fun hc => Bool.noConfusion (h1.symm.trans hc.1.1))]
  · have h1' : s.retracted env.active_extruder = false := by
      cases hb : s.retracted env.active_extruder
      · rfl
      · exact absurd hb h1
    by_cases h2 : 1 < env.extruders ∧ sw = true ∧ s.retracted_swap env.active_extruder = true
    · rw [retract_noop_of_guard2 env s true sw h1 h2,
        if_neg (fun hc => hc.1.2 h2)]
    · rw [retract_eq_retractAccept env s sw h1' h2, retractAccept_hop]
      by_cases h3 : s.conf.retract_zlift > hundredth ∧ s.hop_amount = 0
      · rw [if_pos h3, if_pos ⟨⟨h1', h2⟩, h3⟩]
      · rw [if_neg h3, if_neg (fun hc => h3 hc.2)]

/-- A retract request keeps `hop_amount` bounded by the configured
`retract_zlift`. -/
lemma retract_true_hop_le (env : Env) (s : MachineState) (sw : Bool)
    (h : s.hop_amount ≤ s.conf.retract_zlift) :
    (retract env s true sw).1.hop_amount ≤ s.conf.retract_zlift := by
  rw [retract_true_hop]
  split
  · next hc => rw [hc.2.2]; simp
  · exact h

/-- Any sequence of retract requests keeps `hop_amount` bounded by the
configured `retract_zlift`. -/
lemma retractSeq_hop_le (env : Env) (sws : List Bool) :
    ∀ s : MachineState, s.hop_amount ≤ s.conf.retract_zlift →
      (retractSeq env s sws).hop_amount ≤ s.conf.retract_zlift := by
  induction sws with
  | nil => exact fun s h => h
  | cons b bs ih =>
    intro s h
    have hseq : retractSeq env s (b :: bs) = retractSeq env (retract env s true b).1 bs := rfl
    have hconf := retract_conf env s true b
    have := ih (retract env s true b).1 (by rw [hconf]; exact retract_true_hop_le env s b h)
    rw [hconf] at this
    rw [hseq]
    exact this

/-- Claim C5: a retract adds `retract_zlift` to `hop_amount` only when a hop
is configured (`retract_zlift > 0.01`) and none is pending (`hop_amount = 0`);
consequently any sequence of consecutive retract requests, whatever flag
states they encounter, never raises `hop_amount` above a single
`retract_zlift`. -/
theorem hop_single_lift (env : Env) (s : MachineState) (sw : Bool) (sws : List Bool)
    (h : s.hop_amount ≤ s.conf.retract_zlift) :
    ((retract env s true sw).1.hop_amount = s.hop_amount ∨
      (s.conf.retract_zlift > hundredth ∧ s.hop_amount = 0 ∧
        (retract env s true sw).1.hop_amount = s.hop_amount + s.conf.retract_zlift)) ∧
    (retractSeq env s sws).hop_amount ≤ s.conf.retract_zlift := by
  constructor
  · rw [retract_true_hop]
    split
    · next hc => exact Or.inr ⟨hc.2.1, hc.2.2, rfl⟩
    · exact Or.inl rfl
  · exact retractSeq_hop_le env sws s h

/-- Witness for C5: from the recovered zero-hop state, one retract raises
`hop_amount` to the 0.4mm Z-lift and two further forced retracts leave it
bounded by that lift. -/
theorem hop_single_lift_witness :
    st0.hop_amount ≤ st0.conf.retract_zlift ∧
      ((retract env2 st0 true false).1.hop_amount = st0.hop_amount ∨
        (st0.conf.retract_zlift > hundredth ∧ st0.hop_amount = 0 ∧
          (retract env2 st0 true false).1.hop_amount = st0.hop_amount + st0.conf.retract_zlift)) ∧
      (retractSeq env2 st0 [false, true, false]).hop_amount ≤ st0.conf.retract_zlift :=
  ⟨by decide,
    (hop_single_lift env2 st0 false [false, true, false] (by decide)).1,
    (hop_single_lift env2 st0 false [false, true, false] (by decide)).2⟩

/-- Claim C6: an accepted retract queues, as its first move, a filament
displacement of `-(L * renormalize)` where `L` is the configured plain (or,
when effectively swapping, swap) length and `renormalize = 1/e_factor`; for a
nonnegative length and positive flow factor its magnitude is `L / f`. -/
theorem flow_compensation (env : Env) (s : MachineState) (sw : Bool)
    (h1 : s.retracted env.active_extruder = false)
    (h2 : ¬(1 < env.extruders ∧ sw = true ∧ s.retracted_swap env.active_extruder = true))
    (hf : 0 < env.e_factor env.active_extruder)
    (hL : 0 ≤ (if (if 1 < env.extruders then sw else false)
        then s.conf.swap_retract_length else s.conf.retract_length)) :
    ∃ m : Move, (retract env s true sw).2.head? = some m ∧
      m.e_disp = -((if (if 1 < env.extruders then sw else false)
          then s.conf.swap_retract_length else s.conf.retract_length) *
        (1 / env.e_factor env.active_extruder)) ∧
      |m.e_disp| = (if (if 1 < env.extruders then sw else false)
          then s.conf.swap_retract_length else s.conf.retract_length) /
        env.e_factor env.active_extruder := by
  rw [retract_eq_retractAccept env s sw h1 h2]
  refine ⟨_, retractAccept_head .., ?_, ?_⟩
  · simp only [Move.e_disp]
    ring
  · simp only [Move.e_disp]
    rw [show s.current_e - (s.current_e +
        (if (if 1 < env.extruders then sw else false)
          then s.conf.swap_retract_length else s.conf.retract_length) *
          (1 / env.e_factor env.active_extruder)) =
        -((if (if 1 < env.extruders then sw else false)
          then s.conf.swap_retract_length else s.conf.retract_length) /
          env.e_factor env.active_extruder) by rw [mul_one_div]; ring]
    rw [abs_neg, abs_of_nonneg (div_nonneg hL hf.le)]

/-- Witness for C6: with unit flow factor, the accepted plain retract of the
3mm configured length queues a first move of filament displacement `-3`,
magnitude `3 = 3 / 1`. -/
theorem flow_compensation_witness :
    st0.retracted env2.active_extruder = false ∧
      0 < env2.e_factor env2.active_extruder ∧
      ∃ m : Move, (retract env2 st0 true false).2.head? = some m ∧
        m.e_disp = -((if (if 1 < env2.extruders then false else false)
            then st0.conf.swap_retract_length else st0.conf.retract_length) *
          (1 / env2.e_factor env2.active_extruder)) ∧
        |m.e_disp| = (if (if 1 < env2.extruders then false else false)
            then st0.conf.swap_retract_length else st0.conf.retract_length) /
          env2.e_factor env2.active_extruder :=
  ⟨rfl, by decide,
    flow_compensation env2 st0 false rfl (by decide) (by decide) (by decide)⟩

/-- Claim C7: an accepted recover with a hop pending queues exactly two moves:
first a Z move whose start was silently raised by the current `retract_zlift`
and whose target is the original Z, at the axis maximum feedrate, and then the
filament recovery move; afterwards `hop_amount` is zero. -/
theorem recover_hop_undo (env : Env) (s : MachineState) (sw : Bool)
    (h1 : s.retracted env.active_extruder = true)
    (h2 : ¬(1 < env.extruders ∧ sw = true ∧ s.retracted_swap env.active_extruder = false))
    (hhop : s.hop_amount ≠ 0) :
    (retract env s false sw).2 =
      [{ e_from := s.current_e
         e_to := s.current_e
         z_from := s.current_z + s.conf.retract_zlift
         z_to := s.current_z
         feedrate := env.max_feedrate_z },
       { e_from := s.current_e -
            (if (if 1 < env.extruders then s.retracted_swap env.active_extruder else false)
              then s.conf.swap_retract_length + s.conf.swap_retract_recover_length
              else s.conf.retract_length + s.conf.retract_recover_length) *
            (1 / env.e_factor env.active_extruder)
         e_to := s.current_e
         z_from := s.current_z
         z_to := s.current_z
         feedrate :=
           if (if 1 < env.extruders then s.retracted_swap env.active_extruder else false)
            then s.conf.swap_retract_recover_feedrate_mm_s
            else s.conf.retract_recover_feedrate_mm_s }] ∧
    (retract env s false sw).1.hop_amount = 0 := by
  rw [retract_eq_recoverAccept env s sw h1 h2]
  constructor
  · simp only [recoverAccept, if_neg hhop]
    rfl
  · simp only [recoverAccept, if_neg hhop]

/-- Witness for C7: from the retracted state with the 0.4mm hop pending, a
plain recover ends with `hop_amount = 0`. -/
theorem recover_hop_undo_witness :
    stHop.hop_amount ≠ 0 ∧
      (retract env2 stHop false false).1.hop_amount = 0 :=
  ⟨by decide,
    (recover_hop_undo env2 stHop false rfl (by decide) (by decide)).2⟩

/-- Claim C8: an accepted recover queues a single filament recovery move, as
the last queued move, whose start is the current filament position reduced by
`(length + recover length) * renormalize` (swap variant when effectively
swapping) and whose target is the original filament position; every other
queued move leaves the filament axis untouched. -/
theorem recover_e_move (env : Env) (s : MachineState) (sw : Bool)
    (h1 : s.retracted env.active_extruder = true)
    (h2 : ¬(1 < env.extruders ∧ sw = true ∧ s.retracted_swap env.active_extruder = false)) :
    (retract env s false sw).2.getLast? = some
      { e_from := s.current_e -
          (if (if 1 < env.extruders then s.retracted_swap env.active_extruder else false)
            then s.conf.swap_retract_length + s.conf.swap_retract_recover_length
            else s.conf.retract_length + s.conf.retract_recover_length) *
          (1 / env.e_factor env.active_extruder)
        e_to := s.current_e
        z_from := s.current_z
        z_to := s.current_z
        feedrate :=
          if (if 1 < env.extruders then s.retracted_swap env.active_extruder else false)
           then s.conf.swap_retract_recover_feedrate_mm_s
           else s.conf.retract_recover_feedrate_mm_s } ∧
    ∀ m ∈ (retract env s false sw).2.dropLast, m.e_from = m.e_to := by
  rw [retract_eq_recoverAccept env s sw h1 h2]
  by_cases hhop : s.hop_amount = 0
  · simp only [recoverAccept, if_pos hhop]
    exact ⟨rfl, by intro m hm; simp at hm⟩
  · simp only [recoverAccept, if_neg hhop]
    refine ⟨rfl, ?_⟩
    intro m hm
    simp only [List.dropLast, List.mem_singleton, List.cons_append, List.nil_append] at hm
    rw [hm]

/-- Witness for C8: the plain recover from the plain-retracted zero-hop state
queues the single recovery move `[e_from 7, e_to 10]` (length 3, recover
length 0, unit factor) as its last and only move. -/
theorem recover_e_move_witness :
    stP.retracted env2.active_extruder = true ∧
      ∀ m ∈ (retract env2 stP false false).2.dropLast, m.e_from = m.e_to :=
  ⟨rfl, (recover_e_move env2 stP false rfl (by decide)).2⟩

/-- Claim C2: a recover request on an extruder whose swap flag is pending is
forced to behave as a swap recover for either `swapping` argument: the
recovery move uses the swap lengths and the swap recover feedrate, and both
`retracted` and `retracted_swap` of the active extruder are committed to
false. -/
theorem recover_swap_priority (env : Env) (s : MachineState) (sw : Bool)
    (hext : 1 < env.extruders)
    (hr : s.retracted env.active_extruder = true)
    (hrs : s.retracted_swap env.active_extruder = true) :
    (retract env s false sw).1.retracted env.active_extruder = false ∧
    (retract env s false sw).1.retracted_swap env.active_extruder = false ∧
    (retract env s false sw).2.getLast? = some
      { e_from := s.current_e -
          (s.conf.swap_retract_length + s.conf.swap_retract_recover_length) *
          (1 / env.e_factor env.active_extruder)
        e_to := s.current_e
        z_from := s.current_z
        z_to := s.current_z
        feedrate := s.conf.swap_retract_recover_feedrate_mm_s } := by
  have h2 : ¬(1 < env.extruders ∧ sw = true ∧
      s.retracted_swap env.active_extruder = false) := by
    rintro ⟨-, -, hfalse⟩
    exact Bool.noConfusion (hrs.symm.trans hfalse)
  rw [retract_eq_recoverAccept env s sw hr h2, if_pos hext, hrs]
  refine ⟨?_, ?_, ?_⟩
  · simp [recoverAccept, setFlag]
  · simp [recoverAccept, setFlag, hext]
  · by_cases hhop : s.hop_amount = 0
    · simp only [recoverAccept, if_pos hhop]
      rfl
    · simp only [recoverAccept, if_neg hhop]
      rfl

/-- Witness for C2: in the two-extruder swap-retracted state, the plain
recover `retract(false, false)` clears both flags of the active extruder. -/
theorem recover_swap_priority_witness :
    1 < env2.extruders ∧ stR.retracted_swap env2.active_extruder = true ∧
      (retract env2 stR false false).1.retracted env2.active_extruder = false ∧
      (retract env2 stR false false).1.retracted_swap env2.active_extruder = false :=
  ⟨by decide, rfl,
    (recover_swap_priority env2 stR false (by decide) rfl rfl).1,
    (recover_swap_priority env2 stR false (by decide) rfl rfl).2.1⟩

/-- Claim C3: from the recovered state with no hop pending and a hop
configured (`retract_zlift > 0.01`), a retract immediately followed by a
recover (any `swapping` arguments for which the recover is not suppressed by
the swap guard) queues Z moves whose displacements sum to zero, and
`hop_amount` ends at zero.  The configuration cannot change in between, since
`retract` never writes it. -/
theorem hop_symmetry (env : Env) (s : MachineState) (sw₁ sw₂ : Bool)
    (hsw : sw₂ = true → sw₁ = true)
    (hr : s.retracted env.active_extruder = false)
    (hrs : s.retracted_swap env.active_extruder = false)
    (hhop : s.hop_amount = 0)
    (hz : s.conf.retract_zlift > hundredth) :
    (((retract env s true sw₁).2 ++
        (retract env (retract env s true sw₁).1 false sw₂).2).map Move.z_disp).sum = 0 ∧
    (retract env (retract env s true sw₁).1 false sw₂).1.hop_amount = 0 := by
  have h2 : ¬(1 < env.extruders ∧ sw₁ = true ∧
      s.retracted_swap env.active_extruder = true) := by
    rintro ⟨-, -, hx⟩
    exact Bool.noConfusion (hrs.symm.trans hx)
  rw [retract_eq_retractAccept env s sw₁ hr h2]
  have h1' : (retractAccept env s (if 1 < env.extruders then sw₁ else false)).1.retracted
      env.active_extruder = true := retractAccept_retracted_self ..
  have hthop : (retractAccept env s (if 1 < env.extruders then sw₁ else false)).1.hop_amount ≠ 0 := by
    rw [retractAccept_hop, if_pos ⟨hz, hhop⟩, hhop, zero_add]
    exact ne_of_gt (lt_trans (by decide : (0:ℚ) < hundredth) hz)
  have h2' : ¬(1 < env.extruders ∧ sw₂ = true ∧
      (retractAccept env s (if 1 < env.extruders then sw₁ else false)).1.retracted_swap
        env.active_extruder = false) := by
    rintro ⟨hext, hs2, hx⟩
    rw [retractAccept_retracted_swap_self env s _ hext
      (by rw [if_pos hext]; exact hsw hs2)] at hx
    exact Bool.noConfusion hx
  rw [retract_eq_recoverAccept env _ sw₂ h1' h2']
  constructor
  · rw [List.map_append, List.sum_append,
      retractAccept_moves_z env s _ ⟨hz, hhop⟩,
      recoverAccept_moves_z env _ _ hthop,
      retractAccept_conf]
    ring
  · exact recoverAccept_hop_zero ..

/-- Witness for C3: under `cfg0` (0.4mm Z lift), a plain retract followed by a
plain recover from the recovered zero-hop state nets zero queued Z motion and
clears the hop. -/
theorem hop_symmetry_witness :
    st0.conf.retract_zlift > hundredth ∧
      (((retract env2 st0 true false).2 ++
          (retract env2 (retract env2 st0 true false).1 false false).2).map Move.z_disp).sum = 0 ∧
      (retract env2 (retract env2 st0 true false).1 false false).1.hop_amount = 0 :=
  ⟨by decide,
    (hop_symmetry env2 st0 false false (fun h => h) rfl rfl rfl (by decide)).1,
    (hop_symmetry env2 st0 false false (fun h => h) rfl rfl rfl (by decide)).2⟩

end FWRetract
